import Mathlib

/-!
Shallow embedding of the idempotent resource-reconciliation core of the
`install` repository (controllers `openstack.js`, `rancher.js`,
`kubernetes.js`).  Remote stores are modelled as explicit lists of objects,
asynchronous fetch sequences as functions `Nat → _` giving the response to
the k-th poll, and fallible calls as `Except ApiError _`.  Each embedded
function mirrors one JavaScript function; side effects (which create calls
were issued, what the store holds on return) are made explicit in the
result records.
-/

namespace Install

/-- Error value raised by a controller call.  `status` is the HTTP status
code of the response (0 when the error is not an HTTP response error);
`message` is the error message. -/
structure ApiError where
  status : Nat
  message : String
deriving Repr, DecidableEq

/-- Embedding of JavaScript `String.prototype.includes`: `true` iff `pat`
occurs as a substring of `s` (for the non-empty literal patterns the code
uses). -/
def includesSubstring (s pat : String) : Bool :=
  decide (2 ≤ (s.splitOn pat).length) || pat == s

/-- OpenStack network object as used by `createNetwork`
(`src/src/controllers/openstack.js`): the fields the code reads. -/
structure Network where
  id : String
  name : String
  admin_state_up : Bool
deriving Repr, DecidableEq

/-- Argument `networkConfig` of `createNetwork`: the code only reads
`networkConfig.name` on the paths we model. -/
structure NetworkConfig where
  name : String
deriving Repr, DecidableEq

/-- Instrumented result of `createNetwork`: the returned network, the
number of `networksPost` (create) calls issued during the call, and the
network list of the backing store when the call returns. -/
structure CreateNetworkResult where
  network : Network
  createCalls : Nat
  store : List Network
deriving Repr, DecidableEq

/-- Shallow embedding of `createNetwork` (openstack.js lines 123-149).
`networks` is the list returned by `networksGet`; `postOutcome` is the
backing store's reply to `networksPost` in case that call is issued: the
created network on success, or an error (e.g. a 409 conflict).  The
JavaScript `catch` block only logs and rethrows, so an error outcome of
the create call propagates unchanged. -/
def createNetwork (cfg : NetworkConfig) (networks : List Network)
    (postOutcome : Except ApiError Network) :
    Except ApiError CreateNetworkResult :=
  match networks.find? (fun n => n.name == cfg.name) with
  | some existing => .ok ⟨existing, 0, networks⟩
  | none =>
    match postOutcome with
    | .ok created => .ok ⟨created, 1, networks ++ [created]⟩
    | .error e => .error e

/-- Helper: `find?` over an appended list scans the left part first. -/
theorem find?_append_left {α : Type} (p : α → Bool) (l1 l2 : List α)
    (h : l1.find? p = none) : (l1 ++ l2).find? p = l2.find? p := by
  induction l1 with
  | nil => simp
  | cons a t ih =>
    cases hpa : p a with
    | true =>
      simp only [List.find?, hpa] at h
      exact absurd h (by simp)
    | false =>
      simp only [List.cons_append, List.find?, hpa] at h ⊢
      exact ih h

/-- C1: calling `createNetwork` a second time with the same descriptor
against the store as the first call left it returns the object the first
call produced (unchanged, straight from the store), issues no second
create call, and leaves the store unchanged.  The hypothesis `hpost1`
states that the backing store assigns the requested name to a created
network, as OpenStack does for `networksPost`. -/
theorem createNetwork_second_call_returns_existing
    (cfg : NetworkConfig) (networks : List Network)
    (post1 post2 : Except ApiError Network) (r : CreateNetworkResult)
    (h1 : createNetwork cfg networks post1 = .ok r)
    (hpost1 : ∀ n, post1 = .ok n → n.name = cfg.name) :
    createNetwork cfg r.store post2 = .ok ⟨r.network, 0, r.store⟩ := by
  unfold createNetwork at h1 ⊢
  cases hfind : networks.find? (fun n => n.name == cfg.name) with
  | some existing =>
    rw [hfind] at h1
    cases h1
    rw [hfind]
  | none =>
    rw [hfind] at h1
    cases post1 with
    | error e => simp at h1
    | ok created =>
      simp only [Except.ok.injEq] at h1
      subst h1
      have hname : created.name = cfg.name := hpost1 created rfl
      have : (networks ++ [created]).find? (fun n => n.name == cfg.name) =
          some created := by
        rw [find?_append_left _ _ _ hfind]
        simp [List.find?_cons, hname]
      simp only [this]

/-- C1 witness: a concrete two-call run.  The first call creates
`net-a`; the second returns it with zero create calls. -/
theorem createNetwork_second_call_witness :
    createNetwork ⟨"net-a"⟩
      [⟨"id-1", "net-a", true⟩]
      (.error ⟨0, "unused"⟩) =
    .ok ⟨⟨"id-1", "net-a", true⟩, 0, [⟨"id-1", "net-a", true⟩]⟩ := by
  have h1 : createNetwork ⟨"net-a"⟩ []
      (.ok ⟨"id-1", "net-a", true⟩) =
      .ok ⟨⟨"id-1", "net-a", true⟩, 1, [⟨"id-1", "net-a", true⟩]⟩ := rfl
  have h2 := createNetwork_second_call_returns_existing
    ⟨"net-a"⟩ [] (.ok ⟨"id-1", "net-a", true⟩) (.error ⟨0, "unused"⟩)
    ⟨⟨"id-1", "net-a", true⟩, 1, [⟨"id-1", "net-a", true⟩]⟩ h1
    (by intro n hn; cases hn; rfl)
  exact h2

/-- OpenStack security-group rule: the four fields that
`addMissingRules` (openstack.js lines 318-337) compares, plus the
`remote_ip_prefix` field sent on creation.  Port bounds are `Option Nat`
because Neutron reports `null` for protocol-wide rules and the JavaScript
comparison is `===` on the raw values. -/
structure SecurityGroupRule where
  direction : String
  protocol : String
  port_range_min : Option Nat
  port_range_max : Option Nat
deriving Repr, DecidableEq

/-- Shallow embedding of `addSecurityGroupRule` (openstack.js lines
345-388) restricted to its error handling, which is what decides conflict
tolerance: `postOutcome` is the reply to `securityGroupRulesPost`.  A 409
status, or a NeutronError message containing `Security group rule already
exists`, is swallowed (the function logs and returns); any other error is
rethrown. -/
def addSecurityGroupRule (postOutcome : Except ApiError Unit) :
    Except ApiError Unit :=
  match postOutcome with
  | .ok _ => .ok ()
  | .error e =>
    if e.status == 409 then .ok ()
    else if includesSubstring e.message "Security group rule already exists" then .ok ()
    else .error e

/-- C2 counterexample: `createNetwork` has no conflict handling.  With an
empty list response and a 409 conflict reply to the create call (a race
with another caller), `createNetwork` propagates the error instead of
treating it as success and returning the pre-existing object. -/
theorem createNetwork_conflict_propagates :
    createNetwork ⟨"net-a"⟩ [] (.error ⟨409, "Conflict"⟩) =
      .error ⟨409, "Conflict"⟩ := rfl

/-- C2 (amended): `addSecurityGroupRule` treats an already-exists reply to
the rule-create call as success: a 409 status, or a NeutronError message
containing `Security group rule already exists`, yields a non-error return
(without re-resolving the rule). -/
theorem addSecurityGroupRule_conflict_is_success (e : ApiError)
    (h : e.status = 409 ∨
      includesSubstring e.message "Security group rule already exists" = true) :
    addSecurityGroupRule (.error e) = .ok () := by
  rcases h with h | h
  · simp [addSecurityGroupRule, h]
  · simp [addSecurityGroupRule, h]

/-- C2 witness: a concrete 409 conflict reply is treated as success. -/
theorem addSecurityGroupRule_conflict_witness :
    addSecurityGroupRule (.error ⟨409, "Conflict"⟩) = .ok () :=
  addSecurityGroupRule_conflict_is_success ⟨409, "Conflict"⟩ (Or.inl rfl)

/-- OpenStack security group as used by `createSecurityGroup`
(openstack.js lines 274-310): name plus the rules Neutron reports for it. -/
structure SecurityGroup where
  id : String
  name : String
  security_group_rules : List SecurityGroupRule
deriving Repr, DecidableEq

/-- Argument `sgConfig` of `createSecurityGroup`: logical name and the
desired rules. -/
structure SecurityGroupConfig where
  name : String
  rules : List SecurityGroupRule
deriving Repr, DecidableEq

/-- Predicate the loop body of `addMissingRules` (openstack.js line 323)
evaluates: does the existing rule `r` match the desired `rule` on the
(direction, protocol, port_range_min, port_range_max) tuple. -/
def ruleMatches (r rule : SecurityGroupRule) : Bool :=
  r.direction == rule.direction && r.protocol == rule.protocol &&
    r.port_range_min == rule.port_range_min &&
    r.port_range_max == rule.port_range_max

/-- Shallow embedding of `addMissingRules` (openstack.js lines 318-337):
for each desired rule in order, the rule-create call is issued iff no
existing rule matches it on the four-field tuple (`existingRules` is read
once and not refreshed between iterations).  Returns the list of rules for
which an add call is issued. -/
def addMissingRules (existingRules : List SecurityGroupRule) :
    List SecurityGroupRule → List SecurityGroupRule
  | [] => []
  | rule :: rest =>
    if existingRules.any (fun r => ruleMatches r rule) then
      addMissingRules existingRules rest
    else
      rule :: addMissingRules existingRules rest

/-- Instrumented result of `createSecurityGroup`: the returned group, the
rules for which an add call was issued, and the number of group-create
(`securityGroupsPost`) calls issued. -/
structure CreateSecurityGroupResult where
  group : SecurityGroup
  rulesAdded : List SecurityGroupRule
  createCalls : Nat
deriving Repr, DecidableEq

/-- Shallow embedding of `createSecurityGroup` (openstack.js lines
274-310).  `securityGroups` is the list returned by `securityGroupsGet`;
`freshId` the id Neutron assigns on the create path.  If a group with the
configured name exists, it is returned and only the missing rules are
added; otherwise the group is created and an add call is issued for every
configured rule. -/
def createSecurityGroup (cfg : SecurityGroupConfig)
    (securityGroups : List SecurityGroup) (freshId : String) :
    CreateSecurityGroupResult :=
  match securityGroups.find? (fun sg => sg.name == cfg.name) with
  | some existingGroup =>
    ⟨existingGroup, addMissingRules existingGroup.security_group_rules cfg.rules, 0⟩
  | none =>
    ⟨⟨freshId, cfg.name, []⟩, cfg.rules, 1⟩

/-- Helper: a rule is in the `addMissingRules` output iff it is a desired
rule with no tuple-matching existing rule. -/
theorem mem_addMissingRules (existingRules rules : List SecurityGroupRule)
    (rule : SecurityGroupRule) :
    rule ∈ addMissingRules existingRules rules ↔
      rule ∈ rules ∧
        ∀ r ∈ existingRules,
          ¬(r.direction = rule.direction ∧ r.protocol = rule.protocol ∧
            r.port_range_min = rule.port_range_min ∧
            r.port_range_max = rule.port_range_max) := by
  induction rules with
  | nil => simp [addMissingRules]
  | cons a rest ih =>
    unfold addMissingRules
    by_cases hany : existingRules.any (fun r => ruleMatches r a) = true
    · rw [if_pos hany, ih]
      constructor
      · rintro ⟨hmem, hnone⟩
        exact ⟨List.mem_cons_of_mem a hmem, hnone⟩
      · rintro ⟨hmem, hnone⟩
        rcases List.mem_cons.mp hmem with heq | hmem2
        · subst heq
          rw [List.any_eq_true] at hany
          obtain ⟨r, hr, hmr⟩ := hany
          simp only [ruleMatches, Bool.and_eq_true, beq_iff_eq] at hmr
          exact absurd ⟨hmr.1.1.1, hmr.1.1.2, hmr.1.2, hmr.2⟩ (hnone r hr)
        · exact ⟨hmem2, hnone⟩
    · rw [if_neg hany]
      simp only [List.mem_cons, ih]
      constructor
      · rintro (heq | ⟨hmem, hnone⟩)
        · subst heq
          refine ⟨Or.inl rfl, ?_⟩
          intro r hr hcon
          apply hany
          rw [List.any_eq_true]
          refine ⟨r, hr, ?_⟩
          simp only [ruleMatches, Bool.and_eq_true, beq_iff_eq]
          exact ⟨⟨⟨hcon.1, hcon.2.1⟩, hcon.2.2.1⟩, hcon.2.2.2⟩
        · exact ⟨Or.inr hmem, hnone⟩
      · rintro ⟨heq | hmem, hnone⟩
        · exact Or.inl heq
        · exact Or.inr ⟨hmem, hnone⟩

/-- C6: when a group with the configured name already exists,
`createSecurityGroup` returns it (no group-create call), and a desired
rule has an add call issued for it iff no rule already on the group
matches it on the (direction, protocol, port_range_min, port_range_max)
tuple — presence is decided by that tuple, never by rule identity, and
already-present rules are skipped. -/
theorem createSecurityGroup_completes_missing_rules
    (cfg : SecurityGroupConfig) (securityGroups : List SecurityGroup)
    (freshId : String) (g : SecurityGroup)
    (hmem : g ∈ securityGroups) (hname : g.name = cfg.name) :
    ∃ g0 added, createSecurityGroup cfg securityGroups freshId = ⟨g0, added, 0⟩ ∧
      g0 ∈ securityGroups ∧ g0.name = cfg.name ∧
      ∀ rule, rule ∈ added ↔
        rule ∈ cfg.rules ∧
          ∀ r ∈ g0.security_group_rules,
            ¬(r.direction = rule.direction ∧ r.protocol = rule.protocol ∧
              r.port_range_min = rule.port_range_min ∧
              r.port_range_max = rule.port_range_max) := by
  unfold createSecurityGroup
  cases hfind : securityGroups.find? (fun sg => sg.name == cfg.name) with
  | none =>
    rw [List.find?_eq_none] at hfind
    exact absurd (by simp [hname]) (hfind g hmem)
  | some g0 =>
    refine ⟨g0, addMissingRules g0.security_group_rules cfg.rules, rfl,
      List.mem_of_find?_eq_some hfind, ?_, ?_⟩
    · have := List.find?_some hfind
      simpa using this
    · intro rule
      exact mem_addMissingRules g0.security_group_rules cfg.rules rule

/-- C6 witness: group `sg-1` exists with rule R1 already present; a second
ensure call with desired rules [R1, R2] returns the existing group, skips
R1 and adds only R2. -/
theorem createSecurityGroup_witness :
    ∃ g0 added,
      createSecurityGroup
        ⟨"sg-1", [⟨"ingress", "tcp", some 22, some 22⟩,
                  ⟨"ingress", "tcp", some 443, some 443⟩]⟩
        [⟨"sg-id-1", "sg-1", [⟨"ingress", "tcp", some 22, some 22⟩]⟩]
        "unused-fresh-id" = ⟨g0, added, 0⟩ ∧
      added = [⟨"ingress", "tcp", some 443, some 443⟩] := by
  obtain ⟨g0, added, heq, hmem, hname, hiff⟩ :=
    createSecurityGroup_completes_missing_rules
      ⟨"sg-1", [⟨"ingress", "tcp", some 22, some 22⟩,
                ⟨"ingress", "tcp", some 443, some 443⟩]⟩
      [⟨"sg-id-1", "sg-1", [⟨"ingress", "tcp", some 22, some 22⟩]⟩]
      "unused-fresh-id"
      ⟨"sg-id-1", "sg-1", [⟨"ingress", "tcp", some 22, some 22⟩]⟩
      (by simp) rfl
  refine ⟨g0, added, heq, ?_⟩
  have : createSecurityGroup
      ⟨"sg-1", [⟨"ingress", "tcp", some 22, some 22⟩,
                ⟨"ingress", "tcp", some 443, some 443⟩]⟩
      [⟨"sg-id-1", "sg-1", [⟨"ingress", "tcp", some 22, some 22⟩]⟩]
      "unused-fresh-id" =
      ⟨⟨"sg-id-1", "sg-1", [⟨"ingress", "tcp", some 22, some 22⟩]⟩,
        [⟨"ingress", "tcp", some 443, some 443⟩], 0⟩ := rfl
  rw [this] at heq
  cases heq
  rfl

/-- Decidable equality for `Except`, so that concrete runs of the embedded
controllers can be checked by evaluation. -/
instance {ε α : Type} [DecidableEq ε] [DecidableEq α] :
    DecidableEq (Except ε α) := fun x y =>
  match x, y with
  | .ok a, .ok b =>
    if h : a = b then isTrue (by rw [h])
    else isFalse (fun hc => h (Except.ok.inj hc))
  | .error a, .error b =>
    if h : a = b then isTrue (by rw [h])
    else isFalse (fun hc => h (Except.error.inj hc))
  | .ok _, .error _ => isFalse (fun hc => Except.noConfusion hc)
  | .error _, .ok _ => isFalse (fun hc => Except.noConfusion hc)

/-- OpenStack floating IP as read by `createFloatingIP` / `getFloatingIP`
(openstack.js lines 614-724): Neutron id, address, and the tag list, which
is absent (`none`) when the API reports no `tags` field. -/
structure FloatingIP where
  id : String
  floating_ip_address : String
  tags : Option (List String)
deriving Repr, DecidableEq

/-- Argument `floatingIpConfig` of `createFloatingIP`: the logical name
(the idempotency key encoded in the `name:<logical-name>` tag). -/
structure FloatingIPConfig where
  name : String
deriving Repr, DecidableEq

/-- Tag-based identity test used by both `getFloatingIP` (openstack.js
line 713) and the resolution step of `createFloatingIP` (lines 622-625,
and rancher.js lines 1255-1258): a floating IP matches logical name
`name` iff it has a tag list and the exact string `name:<name>` is a
member of it (JavaScript `Array.prototype.includes`). -/
def hasNameTag (name : String) (ip : FloatingIP) : Bool :=
  match ip.tags with
  | none => false
  | some ts => ts.any (fun t => t == "name:" ++ name)

/-- Shallow embedding of `getFloatingIP` (openstack.js lines 705-724):
first floating IP whose tag set contains `name:<name>`, or an error when
none matches. -/
def getFloatingIP (floatingIpName : String) (floatingIps : List FloatingIP) :
    Except ApiError FloatingIP :=
  match floatingIps.find? (fun ip => hasNameTag floatingIpName ip) with
  | some ip => .ok ip
  | none => .error ⟨0, "Floating IP " ++ floatingIpName ++ " not found"⟩

/-- Helper: a non-empty string has positive length. -/
theorem length_pos_of_ne_empty (s : String) (h : s ≠ "") : 0 < s.length := by
  cases s with
  | mk data =>
    cases data with
    | nil => exact absurd rfl h
    | cons c t => simp [String.length]

/-- C7: tag-only resolution matches an object iff the exact string
`name:<logicalName>` is a member of its tag set: (1) the membership
characterisation, (2) `getFloatingIP` only returns a store object carrying
the exact tag, (3) prefix-safety — an object whose tag is `name:<X++suffix>`
for a non-empty suffix is not matched for logical name `X`, and (4) an
object with no tag field is never matched. -/
theorem floatingIP_tag_identity :
    (∀ name ip, hasNameTag name ip = true ↔
        ∃ ts, ip.tags = some ts ∧ ("name:" ++ name) ∈ ts) ∧
    (∀ name floatingIps ip, getFloatingIP name floatingIps = .ok ip →
        ip ∈ floatingIps ∧ hasNameTag name ip = true) ∧
    (∀ x suffix ip, suffix ≠ "" → ip.tags = some ["name:" ++ (x ++ suffix)] →
        hasNameTag x ip = false) ∧
    (∀ x ip, ip.tags = none → hasNameTag x ip = false) := by
  refine ⟨?_, ?_, ?_, ?_⟩
  · intro name ip
    cases htags : ip.tags with
    | none => simp [hasNameTag, htags]
    | some ts =>
      simp [hasNameTag, htags, List.any_eq_true, beq_iff_eq]
  · intro name floatingIps ip h
    unfold getFloatingIP at h
    cases hfind : floatingIps.find? (fun ip => hasNameTag name ip) with
    | none => rw [hfind] at h; exact absurd h (by simp)
    | some found =>
      rw [hfind] at h
      cases h
      exact ⟨List.mem_of_find?_eq_some hfind, List.find?_some hfind⟩
  · intro x suffix ip hs htags
    have hne : ("name:" ++ (x ++ suffix) : String) ≠ "name:" ++ x := by
      intro h
      have hl := congrArg String.length h
      rw [String.length_append, String.length_append, String.length_append] at hl
      have hpos : 0 < suffix.length := length_pos_of_ne_empty suffix hs
      omega
    simp [hasNameTag, htags, hne]
  · intro x ip htags
    simp [hasNameTag, htags]

/-- C7 witness: prefix-safety and the no-tags case at concrete inputs: a
floating IP tagged `name:XY` is not matched for logical name `X`, and one
with no tag field is not matched either. -/
theorem floatingIP_tag_identity_witness :
    hasNameTag "X" ⟨"fip-1", "1.2.3.4", some ["name:XY"]⟩ = false ∧
    hasNameTag "X" ⟨"fip-2", "5.6.7.8", none⟩ = false := by
  constructor
  · exact floatingIP_tag_identity.2.2.1 "X" "Y"
      ⟨"fip-1", "1.2.3.4", some ["name:XY"]⟩ (by decide) (by decide)
  · exact floatingIP_tag_identity.2.2.2 "X"
      ⟨"fip-2", "5.6.7.8", none⟩ rfl

/-- Instrumented result of `createFloatingIP`: the returned floating IP,
the floating IP list of the backing store at the moment the function
returns, the number of create (`POST floatingips`) calls issued, and the
tag whose application was started but not awaited (`none` when no tagging
was initiated). -/
structure CreateFloatingIPResult where
  returned : FloatingIP
  store : List FloatingIP
  createCalls : Nat
  pendingTag : Option String
deriving Repr, DecidableEq

/-- Shallow embedding of `createFloatingIP` (openstack.js lines 614-657).
`floatingIps` is the list returned by the floating IP GET; `freshId` and
`freshAddr` are what Neutron assigns on creation.  The call
`addTagsToFloatingIP(client, floatingIp.id, [` name:... `])` on line 649
carries no `await`: when `createFloatingIP` returns, the tag PUT has not
completed, so the store holds the new floating IP with its initial empty
tag list and the tag application is merely pending (recorded in
`pendingTag`); a failure of that call never reaches `createFloatingIP`'s
`catch`. -/
def createFloatingIP (cfg : FloatingIPConfig) (floatingIps : List FloatingIP)
    (freshId freshAddr : String) : Except ApiError CreateFloatingIPResult :=
  match floatingIps.find? (fun ip => hasNameTag cfg.name ip) with
  | some existingIp => .ok ⟨existingIp, floatingIps, 0, none⟩
  | none =>
    .ok ⟨⟨freshId, freshAddr, some []⟩,
      floatingIps ++ [⟨freshId, freshAddr, some []⟩], 1,
      some ("name:" ++ cfg.name)⟩

/-- C5: on the create path, `createFloatingIP` returns while the
`name:<logical-name>` tag is only pending (the returned object and the
store carry no name tag yet), so the at-most-one-object-per-tag invariant
is not guaranteed on return, and a re-run before/without the tag being
applied issues a second create for the same logical name, leaving two
floating IPs in the store. -/
theorem createFloatingIP_unawaited_tag_duplicates
    (cfg : FloatingIPConfig) (floatingIps : List FloatingIP)
    (id1 addr1 id2 addr2 : String) (r1 r2 : CreateFloatingIPResult)
    (habsent : ∀ ip ∈ floatingIps, hasNameTag cfg.name ip = false)
    (h1 : createFloatingIP cfg floatingIps id1 addr1 = .ok r1)
    (h2 : createFloatingIP cfg r1.store id2 addr2 = .ok r2) :
    r1.createCalls = 1 ∧
    hasNameTag cfg.name r1.returned = false ∧
    r1.pendingTag = some ("name:" ++ cfg.name) ∧
    r2.createCalls = 1 ∧
    r2.store.length = floatingIps.length + 2 := by
  have hfind1 : floatingIps.find? (fun ip => hasNameTag cfg.name ip) = none := by
    rw [List.find?_eq_none]
    intro ip hip
    simp [habsent ip hip]
  unfold createFloatingIP at h1
  rw [hfind1] at h1
  cases h1
  have hfind2 : (floatingIps ++ [(⟨id1, addr1, some []⟩ : FloatingIP)]).find?
      (fun ip => hasNameTag cfg.name ip) = none := by
    rw [List.find?_eq_none]
    intro ip hip
    rcases List.mem_append.mp hip with hmem | hmem
    · simp [habsent ip hmem]
    · rcases List.mem_singleton.mp hmem with rfl
      simp [hasNameTag]
  unfold createFloatingIP at h2
  simp only [hfind2] at h2
  cases h2
  refine ⟨rfl, by simp [hasNameTag], rfl, rfl, ?_⟩
  simp

/-- C5 witness: two runs against an initially empty store, the tagging of
the first never landing, produce two distinct floating IPs for the same
logical name. -/
theorem createFloatingIP_unawaited_tag_witness :
    (1 : Nat) = 1 ∧
    hasNameTag "kube-api" ⟨"fip-1", "1.2.3.4", some []⟩ = false ∧
    (some ("name:" ++ "kube-api") : Option String) = some ("name:" ++ "kube-api") ∧
    (1 : Nat) = 1 ∧
    ([(⟨"fip-1", "1.2.3.4", some []⟩ : FloatingIP),
      ⟨"fip-2", "5.6.7.8", some []⟩] : List FloatingIP).length = 0 + 2 := by
  have h := createFloatingIP_unawaited_tag_duplicates
    ⟨"kube-api"⟩ [] "fip-1" "1.2.3.4" "fip-2" "5.6.7.8"
    ⟨⟨"fip-1", "1.2.3.4", some []⟩, [⟨"fip-1", "1.2.3.4", some []⟩], 1,
      some ("name:" ++ "kube-api")⟩
    ⟨⟨"fip-2", "5.6.7.8", some []⟩,
      [⟨"fip-1", "1.2.3.4", some []⟩, ⟨"fip-2", "5.6.7.8", some []⟩], 1,
      some ("name:" ++ "kube-api")⟩
    (by intro ip hip; cases hip) rfl rfl
  exact h

/-- Outcome of the existence read at the start of
`KubernetesController.createOrUpdateResource` (kubernetes.js lines
84-119): the resource was found (with the `resourceVersion` the read
exposes, when any), the read failed with code 404 (absent), or the read
failed otherwise. -/
inductive ReadOutcome where
  | found (resourceVersion : Option String)
  | notFound
  | failure (e : ApiError)
deriving Repr, DecidableEq

/-- Parameters of `createOrUpdateResource` as the embedded paths read
them: the resource kind, metadata name and namespace, whether
`group`/`version`/`plural` are all provided (required for custom
resources), and the `resourceVersion` the caller's body carries before the
call (normally absent). -/
structure KParams where
  kind : String
  name : String
  namespaceName : String
  hasGroupVersionPlural : Bool
  bodyResourceVersion : Option String
deriving Repr, DecidableEq

/-- Instrumented result of `createOrUpdateResource`: the returned record
(`success`/`action` fields as the code builds them) plus which mutating
calls were issued and the `resourceVersion` the body carried when they
were issued. -/
structure UpsertResult where
  success : Bool
  name : String
  namespaceName : String
  kind : String
  action : String
  replaceIssued : Bool
  createIssued : Bool
  sentResourceVersion : Option String
deriving Repr, DecidableEq

/-- Test on kubernetes.js line 82: kinds handled through the core API. -/
def isCoreResource (kind : String) : Bool :=
  ["Secret", "ConfigMap", "Service", "PersistentVolumeClaim"].any
    (fun k => k == kind)

/-- Shallow embedding of `KubernetesController.createOrUpdateResource`
(kubernetes.js lines 67-215).  `readRes` is the outcome of the existence
read.  On the present path the read resource's `resourceVersion`, when
readable, is merged into the body (line 122-125); the replace is then
issued for core kinds `Secret`/`ConfigMap`/`Service` (the update branch
has no `PersistentVolumeClaim` case, lines 129-148) and for custom
resources.  On the absent path a create is issued for every kind.  The
function returns `{success: true, action: exists ? 'updated' : 'created'}`
whenever no call failed. -/
def createOrUpdateResource (p : KParams) (readRes : ReadOutcome) :
    Except ApiError UpsertResult :=
  if isCoreResource p.kind then
    match readRes with
    | .failure e => .error e
    | .found rv =>
      let sentRv := match rv with
        | some v => some v
        | none => p.bodyResourceVersion
      .ok ⟨true, p.name, p.namespaceName, p.kind, "updated",
        ["Secret", "ConfigMap", "Service"].any (fun k => k == p.kind),
        false, sentRv⟩
    | .notFound =>
      .ok ⟨true, p.name, p.namespaceName, p.kind, "created",
        false, true, p.bodyResourceVersion⟩
  else
    if p.hasGroupVersionPlural then
      match readRes with
      | .failure e => .error e
      | .found rv =>
        let sentRv := match rv with
          | some v => some v
          | none => p.bodyResourceVersion
        .ok ⟨true, p.name, p.namespaceName, p.kind, "updated",
          true, false, sentRv⟩
      | .notFound =>
        .ok ⟨true, p.name, p.namespaceName, p.kind, "created",
          false, true, p.bodyResourceVersion⟩
    else
      .error ⟨0, "Parameters group, version and plural are required for custom resources"⟩

/-- C3 counterexample: a `Secret` that exists but whose `resourceVersion`
cannot be read.  The claim says the update is skipped (no replace call);
the code issues the replace anyway (with the body's `resourceVersion`
unset) and reports the update as done. -/
theorem createOrUpdateResource_missing_version_still_replaces :
    createOrUpdateResource ⟨"Secret", "db-secret", "default", false, none⟩
      (.found none) =
    .ok ⟨true, "db-secret", "default", "Secret", "updated", true, false, none⟩ :=
  rfl

/-- C3 (amended): when the resource exists but its version token cannot be
read, `createOrUpdateResource` does not skip the update: for the core
kinds with an update case (`Secret`, `ConfigMap`, `Service`) and for
custom resources, the replace call is still issued, with the body's
`resourceVersion` left as the caller provided it, and the call returns
success with action `updated` (no error is raised). -/
theorem createOrUpdateResource_missing_version_replace_issued
    (p : KParams)
    (hk : p.kind = "Secret" ∨ p.kind = "ConfigMap" ∨ p.kind = "Service" ∨
      (isCoreResource p.kind = false ∧ p.hasGroupVersionPlural = true)) :
    createOrUpdateResource p (.found none) =
      .ok ⟨true, p.name, p.namespaceName, p.kind, "updated",
        true, false, p.bodyResourceVersion⟩ := by
  rcases hk with hk | hk | hk | ⟨hc, hg⟩
  · simp [createOrUpdateResource, isCoreResource, hk]
  · simp [createOrUpdateResource, isCoreResource, hk]
  · simp [createOrUpdateResource, isCoreResource, hk]
  · simp [createOrUpdateResource, hc, hg]

/-- C3 amended-claim witness: a concrete existing `Secret` with unreadable
version token gets its replace issued with the body version unset. -/
theorem createOrUpdateResource_missing_version_witness :
    createOrUpdateResource ⟨"Secret", "tls-secret", "istio-system", false, none⟩
      (.found none) =
    .ok ⟨true, "tls-secret", "istio-system", "Secret", "updated",
      true, false, none⟩ :=
  createOrUpdateResource_missing_version_replace_issued
    ⟨"Secret", "tls-secret", "istio-system", false, none⟩ (Or.inl rfl)

/-- C10: for a `PersistentVolumeClaim` that already exists, the update
branch of `createOrUpdateResource` has no PVC case, so neither a replace
nor a create call is issued, yet the function still returns
`{success: true, action: 'updated'}`. -/
theorem createOrUpdateResource_pvc_update_is_noop
    (p : KParams) (rv : Option String)
    (hk : p.kind = "PersistentVolumeClaim") :
    ∃ r, createOrUpdateResource p (.found rv) = .ok r ∧
      r.replaceIssued = false ∧ r.createIssued = false ∧
      r.success = true ∧ r.action = "updated" := by
  refine ⟨⟨true, p.name, p.namespaceName, p.kind, "updated", false, false,
    match rv with | some v => some v | none => p.bodyResourceVersion⟩,
    ?_, rfl, rfl, rfl, rfl⟩
  simp [createOrUpdateResource, isCoreResource, hk]

/-- C10 witness: a concrete existing PVC — no replace, no create, yet
reported as `updated`. -/
theorem createOrUpdateResource_pvc_witness :
    ∃ r, createOrUpdateResource
      ⟨"PersistentVolumeClaim", "data-pvc", "default", false, none⟩
      (.found (some "41723")) = .ok r ∧
      r.replaceIssued = false ∧ r.createIssued = false ∧
      r.success = true ∧ r.action = "updated" :=
  createOrUpdateResource_pvc_update_is_noop
    ⟨"PersistentVolumeClaim", "data-pvc", "default", false, none⟩
    (some "41723") rfl

/-- OpenStack server object: the fields `waitForServerStatus` reads. -/
structure Server where
  id : String
  status : String
deriving Repr, DecidableEq

/-- OpenStack load balancer object: the fields
`waitForLoadBalancerStatus` reads. -/
structure LoadBalancer where
  id : String
  provisioning_status : String
deriving Repr, DecidableEq

/-- Error thrown by the OpenStack pollers on timeout (openstack.js lines
601 and 874). -/
def timeoutError (what targetStatus : String) : ApiError :=
  ⟨0, "Timeout waiting for " ++ what ++ " to reach status " ++ targetStatus⟩

/-- Common fetch-check-sleep loop of the OpenStack pollers
(openstack.js lines 586-599 and 857-872), in discrete time: `fetch k` is
the object the k-th poll returns, `done` the predicate the loop tests
(`status === targetStatus`), `fuel` the number of polls the timeout
budget admits, `k` the index of the next poll.  When `done` holds the
fetched object is returned; when the budget runs out the timeout error is
raised. -/
def statusPollLoop {β : Type} (fetch : Nat → β) (done : β → Bool)
    (timeoutErr : ApiError) : Nat → Nat → Except ApiError β
  | 0, _ => .error timeoutErr
  | fuel + 1, k =>
    if done (fetch k) then .ok (fetch k)
    else statusPollLoop fetch done timeoutErr fuel (k + 1)

/-- Shallow embedding of `waitForServerStatus` (openstack.js lines
579-606): poll the server until `status` equals `targetStatus`, raising
the timeout error when the budget `fuel` is exhausted. -/
def waitForServerStatus (fetch : Nat → Server) (targetStatus : String)
    (fuel : Nat) : Except ApiError Server :=
  statusPollLoop fetch (fun s => s.status == targetStatus)
    (timeoutError "server" targetStatus) fuel 0

/-- Shallow embedding of `waitForLoadBalancerStatus` (openstack.js lines
850-879): identical loop on `provisioning_status`. -/
def waitForLoadBalancerStatus (fetch : Nat → LoadBalancer)
    (targetStatus : String) (fuel : Nat) : Except ApiError LoadBalancer :=
  statusPollLoop fetch (fun lb => lb.provisioning_status == targetStatus)
    (timeoutError "load balancer" targetStatus) fuel 0

/-- Outcome of one resource read inside
`KubernetesController.waitForResource` (kubernetes.js lines 330-393): the
resource, a 404, or another error — the last two are both swallowed by the
`catch` and the loop continues. -/
inductive KFetchOutcome (α : Type) where
  | ok (resource : α)
  | notFound
  | failure (e : ApiError)
deriving Repr, DecidableEq

/-- Whether one poll of `waitForResource` meets the wait: only a
successful read whose resource satisfies the condition does. -/
def kFetchMet {α : Type} (condition : α → Bool) : KFetchOutcome α → Bool
  | .ok r => condition r
  | .notFound => false
  | .failure _ => false

/-- Loop of `waitForResource`: fetch errors (404 or otherwise) are logged
and the loop continues; a fetched resource satisfying `condition` returns
`true`; an exhausted budget returns `false` — not an error. -/
def waitForResourceLoop {α : Type} (fetch : Nat → KFetchOutcome α)
    (condition : α → Bool) : Nat → Nat → Bool
  | 0, _ => false
  | fuel + 1, k =>
    match fetch k with
    | .ok r =>
      if condition r then true
      else waitForResourceLoop fetch condition fuel (k + 1)
    | .notFound => waitForResourceLoop fetch condition fuel (k + 1)
    | .failure _ => waitForResourceLoop fetch condition fuel (k + 1)

/-- Shallow embedding of `KubernetesController.waitForResource`
(kubernetes.js lines 318-397): returns `true` when the condition is met
within the budget and `false` on timeout (lines 395-396 log an error and
`return false`; nothing is thrown). -/
def waitForResource {α : Type} (fetch : Nat → KFetchOutcome α)
    (condition : α → Bool) (fuel : Nat) : Bool :=
  waitForResourceLoop fetch condition fuel 0

/-- Helper: the poll loop raises the timeout error when the predicate
holds at none of the remaining polls. -/
theorem statusPollLoop_timeout {β : Type} (fetch : Nat → β) (done : β → Bool)
    (err : ApiError) :
    ∀ fuel k, (∀ j, j < fuel → done (fetch (k + j)) = false) →
      statusPollLoop fetch done err fuel k = .error err := by
  intro fuel
  induction fuel with
  | zero => intro k _; rfl
  | succ n ih =>
    intro k h
    unfold statusPollLoop
    have h0 : done (fetch k) = false := by
      have := h 0 (Nat.succ_pos n)
      simpa using this
    rw [h0]
    simp only [Bool.false_eq_true, if_false]
    apply ih
    intro j hj
    have : k + 1 + j = k + (j + 1) := by omega
    rw [this]
    exact h (j + 1) (by omega)

/-- Helper: the poll loop returns the fetched object at the first poll
where the predicate holds, provided that poll is within budget. -/
theorem statusPollLoop_first_hit {β : Type} (fetch : Nat → β) (done : β → Bool)
    (err : ApiError) :
    ∀ fuel k k0, k ≤ k0 → k0 < k + fuel → done (fetch k0) = true →
      (∀ j, k ≤ j → j < k0 → done (fetch j) = false) →
      statusPollLoop fetch done err fuel k = .ok (fetch k0) := by
  intro fuel
  induction fuel with
  | zero => intro k k0 hle hlt _ _; omega
  | succ n ih =>
    intro k k0 hle hlt hhit hbefore
    unfold statusPollLoop
    rcases Nat.eq_or_lt_of_le hle with heq | hlt2
    · subst heq
      rw [hhit]
      simp
    · have h0 : done (fetch k) = false := hbefore k le_rfl hlt2
      rw [h0]
      simp only [Bool.false_eq_true, if_false]
      exact ih (k + 1) k0 hlt2 (by omega) hhit
        (fun j hj1 hj2 => hbefore j (by omega) hj2)

/-- Helper: the `waitForResource` loop returns `false` when no remaining
poll meets the wait. -/
theorem waitForResourceLoop_timeout {α : Type} (fetch : Nat → KFetchOutcome α)
    (condition : α → Bool) :
    ∀ fuel k, (∀ j, j < fuel → kFetchMet condition (fetch (k + j)) = false) →
      waitForResourceLoop fetch condition fuel k = false := by
  intro fuel
  induction fuel with
  | zero => intro k _; rfl
  | succ n ih =>
    intro k h
    have h0 : kFetchMet condition (fetch k) = false := by
      have := h 0 (Nat.succ_pos n)
      simpa using this
    have hrec : waitForResourceLoop fetch condition n (k + 1) = false := by
      apply ih
      intro j hj
      have : k + 1 + j = k + (j + 1) := by omega
      rw [this]
      exact h (j + 1) (by omega)
    unfold waitForResourceLoop
    cases hf : fetch k with
    | ok r =>
      rw [hf] at h0
      simp only [kFetchMet] at h0
      simp [h0, hrec]
    | notFound => exact hrec
    | failure e => exact hrec

/-- Helper: the `waitForResource` loop returns `true` at the first poll
meeting the wait, provided that poll is within budget. -/
theorem waitForResourceLoop_hit {α : Type} (fetch : Nat → KFetchOutcome α)
    (condition : α → Bool) :
    ∀ fuel k k0, k ≤ k0 → k0 < k + fuel →
      kFetchMet condition (fetch k0) = true →
      waitForResourceLoop fetch condition fuel k = true := by
  intro fuel
  induction fuel with
  | zero => intro k k0 hle hlt _; omega
  | succ n ih =>
    intro k k0 hle hlt hhit
    unfold waitForResourceLoop
    rcases Nat.eq_or_lt_of_le hle with heq | hlt2
    · subst heq
      cases hf : fetch k with
      | ok r =>
        rw [hf] at hhit
        simp only [kFetchMet] at hhit
        simp [hhit]
      | notFound => rw [hf] at hhit; simp [kFetchMet] at hhit
      | failure e => rw [hf] at hhit; simp [kFetchMet] at hhit
    · have hrec := ih (k + 1) k0 hlt2 (by omega) hhit
      cases hf : fetch k with
      | ok r =>
        cases hc : condition r with
        | true => simp [hc]
        | false => simp [hc, hrec]
      | notFound => exact hrec
      | failure e => exact hrec

/-- C4 counterexample: `waitForResource` with a never-met condition (here
the resource never appears) returns the plain value `false` on timeout —
it does not raise a timeout error, contradicting the claim that every
waitFor-style poller raises a fatal `TimeoutError`. -/
theorem waitForResource_timeout_returns_false :
    waitForResource (fun _ => (KFetchOutcome.notFound : KFetchOutcome Server))
      (fun _ => true) 3 = false := rfl

/-- C4 (amended): `waitForServerStatus` and `waitForLoadBalancerStatus`
raise the timeout error when the status never equals the target within
the poll budget and return the fetched object at the first matching poll;
`waitForResource` instead returns `false` on timeout (a non-error value)
and returns `true` at the first poll meeting the condition. -/
theorem pollers_timeout_and_first_hit :
    (∀ fetch targetStatus fuel,
      (∀ j, j < fuel → (fetch j).status ≠ targetStatus) →
      waitForServerStatus fetch targetStatus fuel =
        .error (timeoutError "server" targetStatus)) ∧
    (∀ fetch targetStatus fuel k0, k0 < fuel →
      (fetch k0).status = targetStatus →
      (∀ j, j < k0 → (fetch j).status ≠ targetStatus) →
      waitForServerStatus fetch targetStatus fuel = .ok (fetch k0)) ∧
    (∀ fetch targetStatus fuel,
      (∀ j, j < fuel → (fetch j).provisioning_status ≠ targetStatus) →
      waitForLoadBalancerStatus fetch targetStatus fuel =
        .error (timeoutError "load balancer" targetStatus)) ∧
    (∀ fetch targetStatus fuel k0, k0 < fuel →
      (fetch k0).provisioning_status = targetStatus →
      (∀ j, j < k0 → (fetch j).provisioning_status ≠ targetStatus) →
      waitForLoadBalancerStatus fetch targetStatus fuel = .ok (fetch k0)) ∧
    (∀ (α : Type) (fetch : Nat → KFetchOutcome α) condition fuel,
      (∀ j, j < fuel → kFetchMet condition (fetch j) = false) →
      waitForResource fetch condition fuel = false) ∧
    (∀ (α : Type) (fetch : Nat → KFetchOutcome α) condition fuel k0,
      k0 < fuel → kFetchMet condition (fetch k0) = true →
      waitForResource fetch condition fuel = true) := by
  refine ⟨?_, ?_, ?_, ?_, ?_, ?_⟩
  · intro fetch targetStatus fuel h
    apply statusPollLoop_timeout
    intro j hj
    simp only [Nat.zero_add]
    simp [h j hj]
  · intro fetch targetStatus fuel k0 hk0 hhit hbefore
    apply statusPollLoop_first_hit fetch _ _ fuel 0 k0 (Nat.zero_le k0)
      (by omega) (by simp [hhit])
    intro j _ hj
    simp [hbefore j hj]
  · intro fetch targetStatus fuel h
    apply statusPollLoop_timeout
    intro j hj
    simp only [Nat.zero_add]
    simp [h j hj]
  · intro fetch targetStatus fuel k0 hk0 hhit hbefore
    apply statusPollLoop_first_hit fetch _ _ fuel 0 k0 (Nat.zero_le k0)
      (by omega) (by simp [hhit])
    intro j _ hj
    simp [hbefore j hj]
  · intro α fetch condition fuel h
    apply waitForResourceLoop_timeout
    intro j hj
    simpa using h j hj
  · intro α fetch condition fuel k0 hk0 hhit
    exact waitForResourceLoop_hit fetch condition fuel 0 k0 (Nat.zero_le k0)
      (by omega) hhit

/-- C4 amended-claim witness: a server that reaches `ACTIVE` at the third
poll is returned; one that never does raises the timeout error; a
never-appearing Kubernetes resource makes `waitForResource` return
`false`. -/
theorem pollers_timeout_and_first_hit_witness :
    waitForServerStatus
      (fun k => if k < 2 then ⟨"srv-1", "BUILD"⟩ else ⟨"srv-1", "ACTIVE"⟩)
      "ACTIVE" 5 = .ok ⟨"srv-1", "ACTIVE"⟩ ∧
    waitForServerStatus (fun _ => ⟨"srv-2", "BUILD"⟩) "ACTIVE" 3 =
      .error (timeoutError "server" "ACTIVE") ∧
    waitForResource
      (fun _ => (KFetchOutcome.notFound : KFetchOutcome Server))
      (fun _ => true) 4 = false := by
  refine ⟨?_, ?_, ?_⟩
  · exact pollers_timeout_and_first_hit.2.1 _ "ACTIVE" 5 2 (by omega)
      (by decide) (by intro j hj; interval_cases j <;> decide)
  · exact pollers_timeout_and_first_hit.1 _ "ACTIVE" 3
      (by intro j hj; decide)
  · exact pollers_timeout_and_first_hit.2.2.2.2.1 Server _ _ 4
      (by intro j hj; decide)

/-- Outcome of one server read inside the Rancher-side
`OpenStackController.waitForServerStatus` (rancher.js lines 1212-1230):
the server object, or an HTTP error with its status code. -/
inductive ServerFetch where
  | ok (server : Server)
  | err (status : Nat)
deriving Repr, DecidableEq

/-- Loop of the Rancher-side `waitForServerStatus` (rancher.js lines
1212-1233): a fetched server ends the wait iff its `status` equals the
target; a fetch error with code 404 while the target is `ABSENT` returns
`null` immediately (the absence is the condition); any other fetch error
is rethrown; an exhausted budget raises the timeout error. -/
def waitForServerStatusRancherLoop (fetch : Nat → ServerFetch)
    (targetStatus : String) : Nat → Nat → Except ApiError (Option Server)
  | 0, _ => .error (timeoutError "server" targetStatus)
  | fuel + 1, k =>
    match fetch k with
    | .ok server =>
      if server.status == targetStatus then .ok (some server)
      else waitForServerStatusRancherLoop fetch targetStatus fuel (k + 1)
    | .err code =>
      if targetStatus == "ABSENT" && code == 404 then .ok none
      else .error ⟨code, "Request failed with status code " ++ toString code⟩

/-- Shallow embedding of the Rancher-side `waitForServerStatus`
(rancher.js lines 1205-1240). -/
def waitForServerStatusRancher (fetch : Nat → ServerFetch)
    (targetStatus : String) (fuel : Nat) : Except ApiError (Option Server) :=
  waitForServerStatusRancherLoop fetch targetStatus fuel 0

/-- Helper for C8: the loop returns `some s` only when some in-budget poll
fetched `s` with the target status. -/
theorem waitForServerStatusRancherLoop_sound (fetch : Nat → ServerFetch)
    (targetStatus : String) :
    ∀ fuel k s,
      waitForServerStatusRancherLoop fetch targetStatus fuel k = .ok (some s) →
      s.status = targetStatus ∧ ∃ j, k ≤ j ∧ j < k + fuel ∧ fetch j = .ok s := by
  intro fuel
  induction fuel with
  | zero => intro k s h; exact absurd h (by simp [waitForServerStatusRancherLoop])
  | succ n ih =>
    intro k s h
    unfold waitForServerStatusRancherLoop at h
    cases hf : fetch k with
    | ok server =>
      rw [hf] at h
      dsimp only [] at h
      by_cases hs : server.status == targetStatus
      · rw [if_pos hs] at h
        have hss : server = s := by
          simpa using h
        subst hss
        exact ⟨by simpa using hs, k, le_rfl, by omega, hf⟩
      · rw [if_neg hs] at h
        obtain ⟨h1, j, hj1, hj2, hj3⟩ := ih (k + 1) s h
        exact ⟨h1, j, by omega, by omega, hj3⟩
    | err code =>
      rw [hf] at h
      dsimp only [] at h
      by_cases habs : (targetStatus == "ABSENT" && code == 404) = true
      · rw [if_pos habs] at h
        exact absurd h (by simp)
      · rw [if_neg habs] at h
        exact absurd h (by simp)

/-- Helper for C8: a 404 poll while the target is `ABSENT` ends the wait
right there with `null`, provided every earlier poll fetched a server
whose status was not `ABSENT`. -/
theorem waitForServerStatusRancherLoop_absent (fetch : Nat → ServerFetch) :
    ∀ fuel k k0, k ≤ k0 → k0 < k + fuel → fetch k0 = .err 404 →
      (∀ j, k ≤ j → j < k0 →
        ∃ s, fetch j = .ok s ∧ s.status ≠ "ABSENT") →
      waitForServerStatusRancherLoop fetch "ABSENT" fuel k = .ok none := by
  intro fuel
  induction fuel with
  | zero => intro k k0 hle hlt _ _; omega
  | succ n ih =>
    intro k k0 hle hlt h404 hbefore
    unfold waitForServerStatusRancherLoop
    rcases Nat.eq_or_lt_of_le hle with heq | hlt2
    · subst heq
      rw [h404]
      simp
    · obtain ⟨s, hfs, hns⟩ := hbefore k le_rfl hlt2
      rw [hfs]
      dsimp only []
      have : (s.status == "ABSENT") = false := by
        simp [hns]
      rw [this]
      simp only [Bool.false_eq_true, if_false]
      exact ih (k + 1) k0 hlt2 (by omega) h404
        (fun j hj1 hj2 => hbefore j (by omega) hj2)

/-- C8: while waiting for the terminal `ABSENT` condition, a 404 reply is
treated as the condition being met and the wait succeeds right at that
poll (returning `null`); and for any target, a fetched server satisfies
the wait iff its `status` field equals the target — the wait only ever
returns a server whose status equals the target, and it returns the
server of the first poll whose status matches. -/
theorem waitForServerStatusRancher_absent_and_status :
    (∀ fetch fuel k0, k0 < fuel → fetch k0 = .err 404 →
      (∀ j, j < k0 → ∃ s, fetch j = .ok s ∧ s.status ≠ "ABSENT") →
      waitForServerStatusRancher fetch "ABSENT" fuel = .ok none) ∧
    (∀ fetch targetStatus fuel s,
      waitForServerStatusRancher fetch targetStatus fuel = .ok (some s) →
      s.status = targetStatus ∧ ∃ j, j < fuel ∧ fetch j = .ok s) ∧
    (∀ fetch targetStatus fuel k0 s, k0 < fuel → fetch k0 = .ok s →
      s.status = targetStatus →
      (∀ j, j < k0 → ∃ s2, fetch j = .ok s2 ∧ s2.status ≠ targetStatus) →
      waitForServerStatusRancher fetch targetStatus fuel = .ok (some s)) := by
  refine ⟨?_, ?_, ?_⟩
  · intro fetch fuel k0 hk0 h404 hbefore
    exact waitForServerStatusRancherLoop_absent fetch fuel 0 k0
      (Nat.zero_le k0) (by omega) h404 (fun j _ hj => hbefore j hj)
  · intro fetch targetStatus fuel s h
    obtain ⟨h1, j, _, hj2, hj3⟩ :=
      waitForServerStatusRancherLoop_sound fetch targetStatus fuel 0 s h
    exact ⟨h1, j, by omega, hj3⟩
  · intro fetch targetStatus fuel k0 s hk0 hfk hss hbefore
    have hgen : ∀ fuel2 k, k ≤ k0 → k0 < k + fuel2 →
        waitForServerStatusRancherLoop fetch targetStatus fuel2 k =
          .ok (some s) := by
      intro fuel2
      induction fuel2 with
      | zero => intro k hle hlt; omega
      | succ n ih =>
        intro k hle hlt
        unfold waitForServerStatusRancherLoop
        rcases Nat.eq_or_lt_of_le hle with heq | hlt2
        · subst heq
          rw [hfk]
          simp [hss]
        · obtain ⟨s2, hfs2, hns2⟩ := hbefore k hlt2
          rw [hfs2]
          dsimp only []
          have : (s2.status == targetStatus) = false := by simp [hns2]
          rw [this]
          simp only [Bool.false_eq_true, if_false]
          exact ih (k + 1) hlt2 (by omega)
    exact hgen fuel 0 (Nat.zero_le k0) (by omega)

/-- C8 witness: a deleted server — the first poll already returns 404 while
waiting for `ABSENT`, and the wait succeeds immediately with `null`. -/
theorem waitForServerStatusRancher_absent_witness :
    waitForServerStatusRancher (fun _ => ServerFetch.err 404) "ABSENT" 3 =
      .ok none := by
  exact waitForServerStatusRancher_absent_and_status.1
    (fun _ => ServerFetch.err 404) 3 0 (by omega) rfl
    (by intro j hj; omega)

/-- Rancher v1 (provisioning) cluster object: `metadata.name` and the
asynchronously populated back-reference `status.clusterName` (the v3
cluster id). -/
structure V1Cluster where
  name : String
  clusterName : Option String
deriving Repr, DecidableEq

/-- Retry loop of the post-create wait in `createCluster` (rancher.js
lines 174-183): up to `fuel` refetches with a fixed 5s delay; `fetch i`
is the `status.clusterName` the i-th refetch reports.  The loop ends at
the first populated value, or silently when the budget is exhausted. -/
def clusterBackIdWaitLoop (fetch : Nat → Option String) :
    Nat → Nat → Option String
  | 0, _ => none
  | fuel + 1, i =>
    match fetch i with
    | some v => some v
    | none => clusterBackIdWaitLoop fetch fuel (i + 1)

/-- Shallow embedding of the post-create tail of
`RancherController.createCluster` (rancher.js lines 170-187): if the
creation response already carries `status.clusterName` the cluster is
returned as-is; otherwise at most 5 refetches are made, and whatever the
loop produced — including nothing — the cluster is then returned
successfully (`logger.success` and `return cluster`); no error is raised
when the budget is exhausted. -/
def createClusterPostCreate (cluster : V1Cluster)
    (fetch : Nat → Option String) : Except ApiError V1Cluster :=
  match cluster.clusterName with
  | some _ => .ok cluster
  | none => .ok { cluster with clusterName := clusterBackIdWaitLoop fetch 5 0 }

/-- Rancher cluster registration token: the two fields the wait loop in
`getRegistrationToken` checks. -/
structure RegistrationToken where
  id : String
  nodeCommand : Option String
  token : Option String
deriving Repr, DecidableEq

/-- Negation of the loop guard `!t.nodeCommand || !t.token` (rancher.js
line 335): the token is ready when both fields are populated. -/
def tokenReady (t : RegistrationToken) : Bool :=
  t.nodeCommand.isSome && t.token.isSome

/-- Retry loop of `getRegistrationToken` (rancher.js lines 334-340): while
the token is not ready and fewer than `fuel` retries were made, sleep 2s
and refetch; `fetch r` is the token the r-th refetch returns. -/
def tokenWaitLoop (fetch : Nat → RegistrationToken) :
    Nat → Nat → RegistrationToken → RegistrationToken
  | 0, _, t => t
  | fuel + 1, r, t =>
    if tokenReady t then t
    else tokenWaitLoop fetch fuel (r + 1) (fetch r)

/-- Shallow embedding of the token wait plus final check in
`getRegistrationToken` (rancher.js lines 333-344): at most 5 refetches;
if the token still lacks `nodeCommand` or `token` afterwards, an error is
raised. -/
def getRegistrationTokenWait (initial : RegistrationToken)
    (fetch : Nat → RegistrationToken) : Except ApiError RegistrationToken :=
  if tokenReady (tokenWaitLoop fetch 5 0 initial) then
    .ok (tokenWaitLoop fetch 5 0 initial)
  else
    .error ⟨0, "Failed to generate node registration command or token"⟩

/-- Shallow embedding of the v3-cluster-id resolution chain of
`getRegistrationToken` (rancher.js lines 263-307): the explicitly
provided id, else the v1 cluster's back-reference, else a v3 cluster-list
search, else a name-filtered search; when every source comes up empty the
function raises.  Request errors inside the fallbacks are logged and
swallowed, modelled by the corresponding argument being `none`. -/
def resolveV3ClusterId (provided fromV1Cluster fromV3List byNameSearch :
    Option String) : Except ApiError String :=
  match provided with
  | some v => .ok v
  | none =>
    match fromV1Cluster with
    | some v => .ok v
    | none =>
      match fromV3List with
      | some v => .ok v
      | none =>
        match byNameSearch with
        | some v => .ok v
        | none => .error ⟨0, "Could not determine v3 cluster ID for registration"⟩

/-- Helper: the back-id retry loop yields nothing when every in-budget
refetch reports the back-reference unpopulated. -/
theorem clusterBackIdWaitLoop_exhausted (fetch : Nat → Option String) :
    ∀ fuel i, (∀ j, i ≤ j → j < i + fuel → fetch j = none) →
      clusterBackIdWaitLoop fetch fuel i = none := by
  intro fuel
  induction fuel with
  | zero => intro i _; rfl
  | succ n ih =>
    intro i h
    unfold clusterBackIdWaitLoop
    rw [h i le_rfl (by omega)]
    exact ih (i + 1) (fun j hj1 hj2 => h j (by omega) (by omega))

/-- Helper: the token retry loop never produces a ready token when the
initial token is not ready and no refetch returns a ready one. -/
theorem tokenWaitLoop_never_ready (fetch : Nat → RegistrationToken) :
    ∀ fuel r t, tokenReady t = false →
      (∀ j, r ≤ j → j < r + fuel → tokenReady (fetch j) = false) →
      tokenReady (tokenWaitLoop fetch fuel r t) = false := by
  intro fuel
  induction fuel with
  | zero => intro r t ht _; exact ht
  | succ n ih =>
    intro r t ht h
    unfold tokenWaitLoop
    rw [ht]
    simp only [Bool.false_eq_true, if_false]
    exact ih (r + 1) (fetch r) (h r le_rfl (by omega))
      (fun j hj1 hj2 => h j (by omega) (by omega))

/-- C9 counterexample: a cluster whose back-reference never becomes
populated.  The post-create wait in `createCluster` exhausts its 5
retries and then returns the cluster successfully with the back id still
absent — it does not raise an error, contradicting the claim that the
bridge raises once its retry budget is exhausted. -/
theorem createCluster_backId_exhausted_no_error :
    createClusterPostCreate ⟨"cluster-a", none⟩ (fun _ => none) =
      .ok ⟨"cluster-a", none⟩ := rfl

/-- C9 (amended): both retry loops are bounded at 5 retries with a fixed
short delay.  `getRegistrationToken` raises when the budget is exhausted
without `nodeCommand` and `token` becoming available, and raises when no
source yields a v3 cluster id; but the post-create wait in
`createCluster`, when its 5 retries are exhausted without the back id,
raises nothing: it returns the cluster successfully with the back
reference still unpopulated. -/
theorem registration_bridge_bounded_retries :
    (∀ cluster fetch, cluster.clusterName = none →
      (∀ j, j < 5 → fetch j = none) →
      createClusterPostCreate cluster fetch =
        .ok { cluster with clusterName := none }) ∧
    (∀ initial fetch, tokenReady initial = false →
      (∀ j, j < 5 → tokenReady (fetch j) = false) →
      getRegistrationTokenWait initial fetch =
        .error ⟨0, "Failed to generate node registration command or token"⟩) ∧
    resolveV3ClusterId none none none none =
      .error ⟨0, "Could not determine v3 cluster ID for registration"⟩ := by
  refine ⟨?_, ?_, rfl⟩
  · intro cluster fetch hcn h
    unfold createClusterPostCreate
    rw [hcn]
    rw [clusterBackIdWaitLoop_exhausted fetch 5 0
      (fun j _ hj => h j (by omega))]
  · intro initial fetch hinit h
    unfold getRegistrationTokenWait
    rw [tokenWaitLoop_never_ready fetch 5 0 initial hinit
      (fun j _ hj => h j (by omega))]
    simp

/-- C9 amended-claim witness: a token whose fields never populate makes
`getRegistrationToken` raise after its bounded retries, while a cluster
whose back id never populates is returned without error. -/
theorem registration_bridge_bounded_retries_witness :
    createClusterPostCreate ⟨"cluster-a", none⟩ (fun _ => none) =
      .ok { name := "cluster-a", clusterName := none } ∧
    getRegistrationTokenWait ⟨"crt-1", none, none⟩
      (fun _ => ⟨"crt-1", none, none⟩) =
      .error ⟨0, "Failed to generate node registration command or token"⟩ := by
  constructor
  · exact registration_bridge_bounded_retries.1 ⟨"cluster-a", none⟩
      (fun _ => none) rfl (fun j _ => rfl)
  · exact registration_bridge_bounded_retries.2.1 ⟨"crt-1", none, none⟩
      (fun _ => ⟨"crt-1", none, none⟩) rfl (fun j _ => rfl)

end Install
